import Mathlib

/-!
Verification of the FastChat call monitor (`fastchat/serve/call_monitor.py`).

The Python `Monitor` class tracks calls per model and per user, derives
time-windowed statistics, and evaluates a two-tier quota policy
(global per-model hourly limit, per-user per-model daily limit).

Embedding conventions:
* Python dicts are insertion-ordered association lists `List (String × β)`;
  `dlookup` is `d[k]`-style lookup (first matching key).
* Timestamps are `Int` seconds since the epoch; `now` is passed explicitly
  where the Python code calls `time.time()`.
* Attribute access on an attribute never assigned (`AttributeError`) and
  uncaught parse errors are modelled with `Except Unit`.
-/

deriving instance DecidableEq for Except

/-- One entry of `self.model_call[model]`: a dict `\x7b"tstamp": ..., "user_id": ...\x7d`. -/
structure ModelReq where
  tstamp : Int
  user_id : String
deriving DecidableEq, Repr

/-- One entry of `self.user_call[user]`: a dict `\x7b"tstamp": ..., "model": ...\x7d`. -/
structure UserReq where
  tstamp : Int
  model : String
deriving DecidableEq, Repr

/-- The per-user record built by `get_user_call_stats`:
`\x7b"call_dict": ..., "total_calls": ...\x7d`. -/
structure UserStat where
  call_dict : List (String × Nat)
  total_calls : Nat
deriving DecidableEq, Repr

/-- Python dict lookup `d[k]` on an insertion-ordered association list
(first occurrence of the key wins). -/
def dlookup {β : Type} : List (String × β) → String → Option β
  | [], _ => none
  | (k0, v) :: t, k => if k0 = k then some v else dlookup t k

/-- Python dict assignment `d[k] = v`: overwrite the first occurrence in place,
or append a fresh key at the end (Python dicts preserve insertion order). -/
def dictSet {β : Type} : List (String × β) → String → β → List (String × β)
  | [], k, v => [(k, v)]
  | (k0, v0) :: t, k, v =>
    if k0 = k then (k0, v) :: t else (k0, v0) :: dictSet t k v

/-- The increment idiom of `get_user_call_stats`:
`if m not in d: d[m] = 0` followed by `d[m] += 1`. -/
def incr : List (String × Nat) → String → List (String × Nat)
  | [], k => [(k, 1)]
  | (k0, v0) :: t, k =>
    if k0 = k then (k0, v0 + 1) :: t else (k0, v0) :: incr t k

/-- The append idiom of `update_stats`:
`if k not in d: d[k] = []` followed by `d[k].append(v)`. -/
def dictAppend {α : Type} : List (String × List α) → String → α → List (String × List α)
  | [], k, v => [(k, [v])]
  | (k0, l) :: t, k, v =>
    if k0 = k then (k0, l ++ [v]) :: t else (k0, l) :: dictAppend t k v

/-- `sum(d.values())` for a count dict. -/
def valsSum (d : List (String × Nat)) : Nat := (d.map Prod.snd).sum

/-- The window test of both stats functions: the Python loop skips a request
when `req["tstamp"] < time.time() - most_recent_min * 60`; this is the kept
case. -/
def inWindow (now most_recent_min tstamp : Int) : Bool :=
  !(tstamp < now - most_recent_min * 60)

/-- The target-model test: the Python loop skips an entry when
`target_model is not None and model != target_model`; this is the kept case. -/
def targetOk (target_model : Option String) (model : String) : Bool :=
  match target_model with
  | none => true
  | some t => model == t

/-- Insert `x` into a list already sorted by `key` descending, before the
first element of strictly smaller key (so an element inserted from the left
of the original list stays before later elements with an equal key: the
stability of Python's `sorted(..., reverse=True)`). -/
def insertDesc {α : Type} (key : α → Nat) (x : α) : List α → List α
  | [] => [x]
  | y :: t => if key y ≤ key x then x :: y :: t else y :: insertDesc key x t

/-- Stable sort by `key` descending, modelling
`sorted(d, key=lambda x: d[x], reverse=True)` on dict keys (the Python code
then rebuilds the dict in sorted key order, which on unique-key association
lists is the same as sorting the entries). -/
def sortedByDesc {α : Type} (key : α → Nat) : List α → List α
  | [] => []
  | x :: t => insertDesc key x (sortedByDesc key t)

/-- `Monitor.get_model_call_stats`: per model, the number of requests inside
the trailing window, optionally restricted to one target model and truncated
to the `top_k` models of highest count. -/
def get_model_call_stats (model_call : List (String × List ModelReq))
    (target_model : Option String) (most_recent_min : Int) (top_k : Option Nat)
    (now : Int) : List (String × Nat) :=
  let base :=
    (model_call.filter (fun p => targetOk target_model p.1)).map
      (fun p => (p.1, (p.2.filter (fun req => inWindow now most_recent_min req.tstamp)).length))
  match top_k with
  | none => base
  | some k => (sortedByDesc (fun p => p.2) base).take k

/-- The inner loop of `get_user_call_stats` building `call_dict` for one user. -/
def buildCallDict (target_model : Option String) (most_recent_min now : Int)
    (reqs : List UserReq) : List (String × Nat) :=
  reqs.foldl
    (fun d req =>
      if inWindow now most_recent_min req.tstamp && targetOk target_model req.model
      then incr d req.model else d)
    []

/-- The per-user body of the `get_user_call_stats` loop: build the user's
`call_dict` and total, and keep the user only when the total is positive. -/
def userEntry (target_model : Option String) (most_recent_min now : Int)
    (p : String × List UserReq) : Option (String × UserStat) :=
  let d := buildCallDict target_model most_recent_min now p.2
  let total := valsSum d
  if 0 < total then some (p.1, UserStat.mk d total) else none

/-- `Monitor.get_user_call_stats`: per user, the per-model call dict over the
window (and target model, when given) with its total; users whose total is 0
are dropped, and `top_k` keeps the users of highest total. -/
def get_user_call_stats (user_call : List (String × List UserReq))
    (target_model : Option String) (most_recent_min : Int) (top_k : Option Nat)
    (now : Int) : List (String × UserStat) :=
  let base := user_call.filterMap (userEntry target_model most_recent_min now)
  match top_k with
  | none => base
  | some k => (sortedByDesc (fun p => p.2.total_calls) base).take k

/-- `Monitor.get_num_users`: the cardinality of the uncapped user stats. -/
def get_num_users (user_call : List (String × List UserReq))
    (most_recent_min now : Int) : Nat :=
  (get_user_call_stats user_call none most_recent_min none now).length

/-- The mutable state of a `Monitor` instance. The four cached stats views are
`Option`s because `__init__` does not assign them: they only come into
existence when `update_stats` first publishes them (`none` models the unset
attribute, whose read raises `AttributeError`). -/
structure Monitor where
  model_call : List (String × List ModelReq)
  user_call : List (String × List UserReq)
  model_call_limit_global : List (String × Int)
  model_call_day_limit_per_user : List (String × Int)
  model_call_stats_hour : Option (List (String × Nat))
  model_call_stats_day : Option (List (String × Nat))
  user_call_stats_hour : Option (List (String × UserStat))
  user_call_stats_day : Option (List (String × UserStat))
deriving DecidableEq

/-- `Monitor.get_model_call_limit`: the configured hourly ceiling, or the
sentinel `-1` when the model has no entry. -/
def get_model_call_limit (m : Monitor) (model : String) : Int :=
  match dlookup m.model_call_limit_global model with
  | none => -1
  | some limit => limit

/-- `Monitor.update_model_call_limit`: overwrite the ceiling only when the
model already has an entry; otherwise report failure and leave the state
untouched. Returns the success flag together with the successor state. -/
def update_model_call_limit (m : Monitor) (model : String) (limit : Int) :
    Bool × Monitor :=
  match dlookup m.model_call_limit_global model with
  | none => (false, m)
  | some _ =>
    (true, { m with model_call_limit_global :=
              dictSet m.model_call_limit_global model limit })

/-- `Monitor.is_model_limit_reached`. Reading the cached hourly view before
`update_stats` has ever assigned it raises `AttributeError` (`Except.error`). -/
def is_model_limit_reached (m : Monitor) (model : String) : Except Unit Bool :=
  match dlookup m.model_call_limit_global model with
  | none => Except.ok false
  | some limit =>
    match m.model_call_stats_hour with
    | none => Except.error ()
    | some stats =>
      match dlookup stats model with
      | none => Except.ok false
      | some c => Except.ok (decide (limit ≤ (c : Int)))

/-- `Monitor.is_user_limit_reached`. Reading the cached daily user view before
`update_stats` has ever assigned it raises `AttributeError` (`Except.error`). -/
def is_user_limit_reached (m : Monitor) (model : String) (user_id : String) :
    Except Unit Bool :=
  match dlookup m.model_call_day_limit_per_user model with
  | none => Except.ok false
  | some limit =>
    match m.user_call_stats_day with
    | none => Except.error ()
    | some stats =>
      match dlookup stats user_id with
      | none => Except.ok false
      | some ustat =>
        match dlookup ustat.call_dict model with
        | none => Except.ok false
        | some c => Except.ok (decide (limit ≤ (c : Int)))

/-- The answer of the `/is_limit_reached` endpoint: the boolean plus, when
over limit, the human-readable reason string. -/
inductive LimitResult where
  | over (reason : String)
  | notOver
deriving DecidableEq, Repr

/-- The `/is_limit_reached` endpoint: model-level hourly check first; only when
it does not fire is the user-level daily check evaluated. -/
def is_limit_reached (m : Monitor) (model : String) (user_id : String) :
    Except Unit LimitResult :=
  match is_model_limit_reached m model with
  | Except.error e => Except.error e
  | Except.ok true =>
    Except.ok (LimitResult.over
      ("MODEL_HOURLY_LIMIT (" ++ model ++ "): " ++
        toString (get_model_call_limit m model)))
  | Except.ok false =>
    match is_user_limit_reached m model user_id with
    | Except.error e => Except.error e
    | Except.ok true =>
      match dlookup m.model_call_day_limit_per_user model with
      | none => Except.error ()
      | some limit =>
        Except.ok (LimitResult.over
          ("USER_DAILY_LIMIT (" ++ model ++ "): " ++ toString limit))
    | Except.ok false => Except.ok LimitResult.notOver

/-- The `Monitor` state right after `Monitor.__init__`: empty raw indices, the
two statically configured limit tables, and the four cached stats views not
yet assigned. -/
def initMonitor : Monitor :=
  { model_call := []
    user_call := []
    model_call_limit_global :=
      [ ("gpt-4-1106-preview", 100)
      , ("gpt-4-0125-preview", 100)
      , ("gpt-4-turbo-browsing", 200)
      , ("gpt-4-turbo-2024-04-09", 100)
      , ("mistral-large-2402", 200)
      , ("llama-3-70b-instruct", 2000)
      , ("claude-3-opus-20240229", 1000)
      , ("claude-3-sonnet-20240229", 1000)
      , ("dbrx-instruct", 1000)
      , ("command-r-plus", 1000)
      , ("gemini-1.5-pro-api-0409-preview", 1000)
      , ("gemini-1.5-pro-api-preview", 1000)
      , ("gpt2-chatbot", 1000)
      , ("im-a-good-gpt2-chatbot", 3000)
      , ("im-also-a-good-gpt2-chatbot", 3000)
      , ("gpt-4o-2024-05-13", 1000)
      , ("gpt-4o-2024-08-06", 1000)
      , ("yi-large", 300)
      , ("deepseek-coder-v2", 500)
      , ("deepseek-v2-api-0628", 300)
      , ("claude-3-5-sonnet-20240620", 2000)
      , ("experimental-mf-router", 100)
      , ("experimental-causal-router", 100)
      , ("llama-3.1-405b-instruct", 2000)
      , ("gemini-1.5-pro-exp-0801", 800)
      , ("sus-column-r", 3000)
      , ("chatgpt-4o-latest", 3000) ]
    model_call_day_limit_per_user :=
      [ ("gpt-4-1106-preview", 5)
      , ("gpt-4-0125-preview", 5)
      , ("gpt-4-turbo-2024-04-09", 5)
      , ("gpt-4-turbo-browsing", 8)
      , ("mistral-large-2402", 8)
      , ("claude-3-opus-20240229", 15)
      , ("claude-3-sonnet-20240229", 32)
      , ("command-r-plus", 32)
      , ("gemini-1.5-pro-api-0409-preview", 16)
      , ("gemini-1.5-pro-api-preview", 16)
      , ("gpt2-chatbot", 8)
      , ("im-a-good-gpt2-chatbot", 16)
      , ("im-also-a-good-gpt2-chatbot", 16)
      , ("gpt-4o-2024-05-13", 8)
      , ("gpt-4o-2024-08-06", 8)
      , ("deepseek-coder-v2", 16)
      , ("claude-3-5-sonnet-20240620", 16)
      , ("llama-3.1-405b-instruct", 16)
      , ("gemini-1.5-pro-exp-0801", 8)
      , ("sus-column-r", 16)
      , ("chatgpt-4o-latest", 16) ]
    model_call_stats_hour := none
    model_call_stats_day := none
    user_call_stats_hour := none
    user_call_stats_day := none }

/-- One raw log line as seen by an `update_stats` cycle. `malformed` is a line
`json.loads` rejects; `record` is a parsed JSON object whose four relevant
fields may each be absent (`obj["..."]` on an absent field raises `KeyError`). -/
inductive LogLine where
  | malformed
  | record (type : Option String) (model : Option String)
      (tstamp : Option Int) (ip : Option String)
deriving DecidableEq, Repr

/-- The two indices an `update_stats` cycle accumulates. -/
structure CycleAcc where
  model_call : List (String × List ModelReq)
  user_call : List (String × List UserReq)
deriving DecidableEq

/-- The per-line body of the `update_stats` ingestion loop, exactly as the
Python code runs it: `json.loads` may raise, `obj["type"]` may raise
`KeyError`, non-`"chat"` records are skipped, and a `"chat"` record missing
`model`, `tstamp` or `ip` raises `KeyError`; any raise escapes the loop. -/
def processLine (acc : CycleAcc) (line : LogLine) : Except Unit CycleAcc :=
  match line with
  | LogLine.malformed => Except.error ()
  | LogLine.record ty mo ts ip =>
    match ty with
    | none => Except.error ()
    | some t =>
      if t ≠ "chat" then Except.ok acc
      else
        match mo, ts, ip with
        | some model, some tstamp, some user =>
          Except.ok
            { model_call := dictAppend acc.model_call model (ModelReq.mk tstamp user)
            , user_call := dictAppend acc.user_call user (UserReq.mk tstamp model) }
        | _, _, _ => Except.error ()

/-- The ingestion part of one `update_stats` cycle over the concatenated lines
of the selected log files; the first uncaught exception aborts the whole
cycle. -/
def runCycle (lines : List LogLine) : Except Unit CycleAcc :=
  lines.foldlM processLine (CycleAcc.mk [] [])

/-- One full `update_stats` cycle body: ingest, then publish the new raw
indices and the four derived hour/day views. An ingestion exception
propagates and (in the Python task) terminates the refresh loop. -/
def update_stats_cycle (m : Monitor) (lines : List LogLine) (now : Int) :
    Except Unit Monitor :=
  match runCycle lines with
  | Except.error e => Except.error e
  | Except.ok acc =>
    Except.ok
      { m with
        model_call := acc.model_call
        model_call_stats_hour :=
          some (get_model_call_stats acc.model_call none 60 none now)
        model_call_stats_day :=
          some (get_model_call_stats acc.model_call none (24 * 60) none now)
        user_call := acc.user_call
        user_call_stats_hour :=
          some (get_user_call_stats acc.user_call none 60 none now)
        user_call_stats_day :=
          some (get_user_call_stats acc.user_call none (24 * 60) none now) }

/-! ### Dictionary lemmas -/

theorem dlookup_dictSet_self {β : Type} (l : List (String × β)) (k : String) (v : β) :
    dlookup (dictSet l k v) k = some v := by
  induction l with
  | nil => simp [dictSet, dlookup]
  | cons p t ih =>
    by_cases h : p.1 = k
    · simp [dictSet, dlookup, h]
    · simp [dictSet, dlookup, h, ih]

theorem dictSet_keys_of_mem {β : Type} (l : List (String × β)) (k : String) (v w : β)
    (h : dlookup l k = some w) :
    (dictSet l k v).map Prod.fst = l.map Prod.fst := by
  induction l with
  | nil => simp [dlookup] at h
  | cons p t ih =>
    by_cases hk : p.1 = k
    · simp [dictSet, hk]
    · simp [dlookup, hk] at h
      simp [dictSet, hk, ih h]

theorem mem_of_dlookup {β : Type} {l : List (String × β)} {k : String} {v : β}
    (h : dlookup l k = some v) : (k, v) ∈ l := by
  induction l with
  | nil => simp [dlookup] at h
  | cons p t ih =>
    obtain ⟨a, b⟩ := p
    by_cases hk : a = k
    · subst hk
      simp [dlookup] at h
      subst h
      exact List.mem_cons_self _ _
    · simp only [dlookup, if_neg hk] at h
      exact List.mem_cons_of_mem _ (ih h)

theorem dlookup_eq_none_of_not_mem_keys {β : Type} {l : List (String × β)} {k : String}
    (h : k ∉ l.map Prod.fst) : dlookup l k = none := by
  induction l with
  | nil => rfl
  | cons p t ih =>
    obtain ⟨a, b⟩ := p
    simp only [List.map_cons, List.mem_cons] at h
    push_neg at h
    rw [dlookup, if_neg (fun e => h.1 e.symm)]
    exact ih h.2

theorem dlookup_map_entry {A B : Type} (f : String → A → B) (l : List (String × A)) (k : String) :
    dlookup (l.map (fun p => (p.1, f p.1 p.2))) k = (dlookup l k).map (f k) := by
  induction l with
  | nil => rfl
  | cons p t ih =>
    by_cases hk : p.1 = k
    · subst hk
      simp [dlookup]
    · simp [dlookup, hk, ih]

theorem filter_targetOk_none {A : Type} (l : List (String × A)) :
    l.filter (fun p => targetOk none p.1) = l := by
  simp [targetOk]

/-! ### `incr` and `buildCallDict` lemmas -/

theorem dlookup_incr_self (d : List (String × Nat)) (k : String) :
    dlookup (incr d k) k = some ((dlookup d k).getD 0 + 1) := by
  induction d with
  | nil => simp [incr, dlookup]
  | cons p t ih =>
    by_cases hk : p.1 = k
    · simp [incr, dlookup, hk]
    · simp [incr, dlookup, hk, ih]

theorem dlookup_incr_other (d : List (String × Nat)) (k k' : String) (h : k' ≠ k) :
    dlookup (incr d k) k' = dlookup d k' := by
  have h' : ¬(k = k') := fun e => h e.symm
  induction d with
  | nil => simp [incr, dlookup, h']
  | cons p t ih =>
    obtain ⟨a, b⟩ := p
    by_cases hk : a = k
    · subst hk
      simp [incr, dlookup, h']
    · simp [incr, dlookup, hk, ih]

theorem valsSum_incr (d : List (String × Nat)) (k : String) :
    valsSum (incr d k) = valsSum d + 1 := by
  induction d with
  | nil => simp [incr, valsSum]
  | cons p t ih =>
    by_cases hk : p.1 = k
    · simp [incr, valsSum, hk]
      omega
    · simp [incr, valsSum, hk] at ih ⊢
      omega

/-- The per-user kept-request predicate of `get_user_call_stats`. -/
def userKeep (target_model : Option String) (most_recent_min now : Int) (req : UserReq) : Bool :=
  inWindow now most_recent_min req.tstamp && targetOk target_model req.model

theorem buildCallDict_foldl_lookup (target : Option String) (w now : Int)
    (reqs : List UserReq) :
    ∀ (d : List (String × Nat)) (mdl : String),
      (dlookup (reqs.foldl
          (fun d req => if userKeep target w now req then incr d req.model else d) d) mdl).getD 0
        = (dlookup d mdl).getD 0
            + reqs.countP (fun r => userKeep target w now r && (r.model == mdl)) := by
  induction reqs with
  | nil => simp
  | cons r t ih =>
    intro d mdl
    rw [List.foldl_cons, List.countP_cons]
    by_cases hkeep : userKeep target w now r = true
    · rw [if_pos hkeep, ih]
      by_cases hm : r.model = mdl
      · subst hm
        rw [dlookup_incr_self]
        simp [hkeep]
        omega
      · rw [dlookup_incr_other _ _ _ (fun e => hm e.symm)]
        simp [hkeep, hm]
    · rw [if_neg hkeep, ih]
      rw [Bool.not_eq_true] at hkeep
      simp [hkeep]

theorem buildCallDict_foldl_valsSum (target : Option String) (w now : Int)
    (reqs : List UserReq) :
    ∀ d : List (String × Nat),
      valsSum (reqs.foldl
          (fun d req => if userKeep target w now req then incr d req.model else d) d)
        = valsSum d + reqs.countP (userKeep target w now) := by
  induction reqs with
  | nil => simp
  | cons r t ih =>
    intro d
    rw [List.foldl_cons, List.countP_cons]
    by_cases hkeep : userKeep target w now r = true
    · rw [if_pos hkeep, ih, valsSum_incr]
      simp [hkeep]
      omega
    · rw [if_neg hkeep, ih]
      rw [Bool.not_eq_true] at hkeep
      simp [hkeep]

theorem buildCallDict_lookup (target : Option String) (w now : Int)
    (reqs : List UserReq) (mdl : String) :
    (dlookup (buildCallDict target w now reqs) mdl).getD 0
      = reqs.countP (fun r => userKeep target w now r && (r.model == mdl)) := by
  have h := buildCallDict_foldl_lookup target w now reqs [] mdl
  simpa [buildCallDict, userKeep, dlookup] using h

theorem buildCallDict_valsSum (target : Option String) (w now : Int)
    (reqs : List UserReq) :
    valsSum (buildCallDict target w now reqs) = reqs.countP (userKeep target w now) := by
  have h := buildCallDict_foldl_valsSum target w now reqs []
  simpa [buildCallDict, userKeep, valsSum] using h

/-! ### Stable descending sort lemmas -/

theorem insertDesc_perm {α : Type} (key : α → Nat) (x : α) (l : List α) :
    (insertDesc key x l).Perm (x :: l) := by
  induction l with
  | nil => simp [insertDesc]
  | cons y t ih =>
    by_cases h : key y ≤ key x
    · simp [insertDesc, h]
    · simp only [insertDesc, if_neg h]
      exact (ih.cons y).trans (List.Perm.swap x y t)

theorem sortedByDesc_perm {α : Type} (key : α → Nat) (l : List α) :
    (sortedByDesc key l).Perm l := by
  induction l with
  | nil => simp [sortedByDesc]
  | cons x t ih =>
    exact (insertDesc_perm key x (sortedByDesc key t)).trans (ih.cons x)

theorem insertDesc_pairwise {α : Type} (key : α → Nat) (x : α) {l : List α}
    (h : l.Pairwise (fun a b => key b ≤ key a)) :
    (insertDesc key x l).Pairwise (fun a b => key b ≤ key a) := by
  induction l with
  | nil => simp [insertDesc]
  | cons y t ih =>
    by_cases hxy : key y ≤ key x
    · simp only [insertDesc, if_pos hxy]
      refine List.Pairwise.cons ?_ h
      intro z hz
      rcases List.mem_cons.1 hz with rfl | hz
      · exact hxy
      · exact le_trans (List.rel_of_pairwise_cons h hz) hxy
    · simp only [insertDesc, if_neg hxy]
      refine List.Pairwise.cons ?_ (ih (List.Pairwise.of_cons h))
      intro z hz
      have hz' := (insertDesc_perm key x t).mem_iff.1 hz
      rcases List.mem_cons.1 hz' with rfl | hz'
      · omega
      · exact List.rel_of_pairwise_cons h hz'

theorem sortedByDesc_pairwise {α : Type} (key : α → Nat) (l : List α) :
    (sortedByDesc key l).Pairwise (fun a b => key b ≤ key a) := by
  induction l with
  | nil => simp [sortedByDesc]
  | cons x t ih => exact insertDesc_pairwise key x ih

theorem insertDesc_filter_key {α : Type} (key : α → Nat) (x : α) (l : List α) (c : Nat) :
    (insertDesc key x l).filter (fun a => key a == c)
      = (x :: l).filter (fun a => key a == c) := by
  induction l with
  | nil => simp [insertDesc]
  | cons y t ih =>
    by_cases hxy : key y ≤ key x
    · simp [insertDesc, hxy]
    · simp only [insertDesc, if_neg hxy]
      by_cases hx : key x = c
      · by_cases hy : key y = c
        · omega
        · simp only [List.filter_cons]
          simp [hx, hy, ih]
      · by_cases hy : key y = c
        · simp only [List.filter_cons]
          simp [hx, hy, ih]
        · simp only [List.filter_cons]
          simp [hx, hy, ih]

theorem sortedByDesc_filter_key {α : Type} (key : α → Nat) (l : List α) (c : Nat) :
    (sortedByDesc key l).filter (fun a => key a == c)
      = l.filter (fun a => key a == c) := by
  induction l with
  | nil => simp [sortedByDesc]
  | cons x t ih =>
    rw [sortedByDesc, insertDesc_filter_key]
    simp only [List.filter_cons]
    rw [ih]

/-! ### Window predicate and user-entry lemmas -/

theorem inWindow_eq (now w t : Int) : inWindow now w t = decide (now - w * 60 ≤ t) := by
  simp only [inWindow]
  by_cases h : t < now - w * 60
  · simp [h, Int.not_le.2 h]
  · simp [h, Int.not_lt.1 h]

theorem userEntry_key (target : Option String) (w now : Int)
    (p : String × List UserReq) (q : String × UserStat)
    (h : userEntry target w now p = some q) : q.1 = p.1 := by
  simp only [userEntry] at h
  split at h
  · cases h
    rfl
  · cases h

theorem userEntry_total_pos (target : Option String) (w now : Int)
    (p : String × List UserReq) (q : String × UserStat)
    (h : userEntry target w now p = some q) : 0 < q.2.total_calls := by
  simp only [userEntry] at h
  split at h
  · cases h
    assumption
  · cases h

theorem userEntry_eval (target : Option String) (w now : Int) (u : String)
    (reqs : List UserReq) :
    userEntry target w now (u, reqs)
      = if 0 < reqs.countP (userKeep target w now)
        then some (u, UserStat.mk (buildCallDict target w now reqs)
            (reqs.countP (userKeep target w now)))
        else none := by
  simp only [userEntry, buildCallDict_valsSum]

theorem dlookup_filterMap_not_mem {A B : Type} (f : String × A → Option (String × B))
    (hf : ∀ p q, f p = some q → q.1 = p.1) :
    ∀ (l : List (String × A)) (u : String), u ∉ l.map Prod.fst →
      dlookup (l.filterMap f) u = none := by
  intro l
  induction l with
  | nil => intro u _; rfl
  | cons p t ih =>
    intro u hu
    simp only [List.map_cons, List.mem_cons] at hu
    push_neg at hu
    rw [List.filterMap_cons]
    cases hfp : f p with
    | none => exact ih u hu.2
    | some q =>
      rw [dlookup, if_neg]
      · exact ih u hu.2
      · rw [hf p q hfp]
        exact fun e => hu.1 e.symm

theorem dlookup_filterMap_nodup {A B : Type} (f : String × A → Option (String × B))
    (hf : ∀ p q, f p = some q → q.1 = p.1) :
    ∀ (l : List (String × A)), (l.map Prod.fst).Nodup →
      ∀ (u : String) (a : A), dlookup l u = some a →
        dlookup (l.filterMap f) u = (f (u, a)).map Prod.snd := by
  intro l
  induction l with
  | nil => intro _ u a h; simp [dlookup] at h
  | cons p t ih =>
    intro hnd u a h
    obtain ⟨p1, p2⟩ := p
    rw [List.map_cons, List.nodup_cons] at hnd
    by_cases hk : p1 = u
    · subst hk
      rw [dlookup, if_pos rfl] at h
      cases h
      rw [List.filterMap_cons]
      cases hfp : f (p1, a) with
      | none =>
        exact dlookup_filterMap_not_mem f hf t p1 hnd.1
      | some q =>
        have hq := hf _ _ hfp
        rw [dlookup, if_pos hq]
        rfl
    · rw [dlookup, if_neg hk] at h
      rw [List.filterMap_cons]
      cases hfp : f (p1, p2) with
      | none => exact ih hnd.2 u a h
      | some q =>
        rw [dlookup, if_neg]
        · exact ih hnd.2 u a h
        · rw [hf _ _ hfp]
          exact hk

/-- Every entry of `get_user_call_stats` (with or without a top-K cap) has a
positive total: zero-activity users are excluded. -/
theorem user_stats_total_pos (user_call : List (String × List UserReq))
    (target : Option String) (w now : Int) (k : Option Nat) (u : String)
    (st : UserStat)
    (h : dlookup (get_user_call_stats user_call target w k now) u = some st) :
    0 < st.total_calls := by
  have hbase : ∀ v : String × UserStat,
      v ∈ user_call.filterMap (userEntry target w now) → 0 < v.2.total_calls := by
    intro v hv
    obtain ⟨p, _, hfp⟩ := List.mem_filterMap.1 hv
    exact userEntry_total_pos target w now p v hfp
  cases k with
  | none =>
    have hm := mem_of_dlookup h
    simp only [get_user_call_stats] at hm
    exact hbase (u, st) hm
  | some k =>
    have hm := mem_of_dlookup h
    simp only [get_user_call_stats] at hm
    have hm2 := (List.take_sublist k _).mem hm
    have hm3 := (sortedByDesc_perm (fun p => p.2.total_calls)
      (user_call.filterMap (userEntry target w now))).mem_iff.1 hm2
    exact hbase (u, st) hm3

/-- `update_model_call_limit` never changes the key set of the limit table. -/
theorem update_model_call_limit_keys (m : Monitor) (model : String) (limit : Int) :
    (update_model_call_limit m model limit).2.model_call_limit_global.map Prod.fst
      = m.model_call_limit_global.map Prod.fst := by
  cases h : dlookup m.model_call_limit_global model with
  | none => simp [update_model_call_limit, h]
  | some w => simp [update_model_call_limit, h, dictSet_keys_of_mem _ _ _ _ h]

/-- A sequence of `update_model_call_limit` operations applied in order. -/
def applyLimitUpdates (m : Monitor) (ops : List (String × Int)) : Monitor :=
  ops.foldl (fun st op => (update_model_call_limit st op.1 op.2).2) m

theorem applyLimitUpdates_keys (ops : List (String × Int)) :
    ∀ m : Monitor,
      (applyLimitUpdates m ops).model_call_limit_global.map Prod.fst
        = m.model_call_limit_global.map Prod.fst := by
  induction ops with
  | nil => intro m; rfl
  | cons op t ih =>
    intro m
    have step : applyLimitUpdates m (op :: t)
        = applyLimitUpdates (update_model_call_limit m op.1 op.2).2 t := rfl
    rw [step, ih, update_model_call_limit_keys]

/-! ### Example states used by the witnesses -/

/-- Example state for the inclusive-threshold witness: ceilings of 5 with
cached hourly counts 5 and 4. -/
def exMonitorC1 : Monitor :=
  { model_call := []
    user_call := []
    model_call_limit_global := [("m", 5), ("m2", 5)]
    model_call_day_limit_per_user := [("m", 3)]
    model_call_stats_hour := some [("m", 5), ("m2", 4)]
    model_call_stats_day := some []
    user_call_stats_hour := some []
    user_call_stats_day := some [] }

/-- Example state for the precedence witness: model `m` is over its hourly
ceiling (2 ≥ 1) and user `u` is over its daily ceiling for `m` (3 ≥ 1). -/
def exMonitorC2 : Monitor :=
  { model_call := []
    user_call := []
    model_call_limit_global := [("m", 1)]
    model_call_day_limit_per_user := [("m", 1)]
    model_call_stats_hour := some [("m", 2)]
    model_call_stats_day := some []
    user_call_stats_hour := some []
    user_call_stats_day := some [("u", UserStat.mk [("m", 3)] 3)] }

/-- Example state for the user daily limit witness: daily ceiling 3 for `m`,
user `u` at 3 calls to `m`, user `u2` at 2 calls to `m`. -/
def exMonitorC3 : Monitor :=
  { model_call := []
    user_call := []
    model_call_limit_global := []
    model_call_day_limit_per_user := [("m", 3)]
    model_call_stats_hour := some []
    model_call_stats_day := some []
    user_call_stats_hour := some []
    user_call_stats_day := some
      [ ("u", UserStat.mk [("m", 3), ("m2", 1)] 4)
      , ("u2", UserStat.mk [("m", 2)] 2) ] }

/-! ### Claims -/

/-- C1: `is_model_limit_reached` returns `false` for a model with no entry in
the global hourly limit table; for a configured model (once the cached hourly
view is published) it returns `true` exactly when a cached hourly count exists
and is at least the configured ceiling — the threshold is inclusive, and when
a cached count `c` exists the answer is literally the decision `limit ≤ c`. -/
theorem C1_model_limit_inclusive_threshold (m : Monitor) (model : String)
    (stats : List (String × Nat)) (hpub : m.model_call_stats_hour = some stats) :
    (dlookup m.model_call_limit_global model = none →
      is_model_limit_reached m model = Except.ok false)
    ∧ (∀ limit : Int, dlookup m.model_call_limit_global model = some limit →
        ((is_model_limit_reached m model = Except.ok true ↔
            ∃ c : Nat, dlookup stats model = some c ∧ limit ≤ (c : Int))
          ∧ (∀ c : Nat, dlookup stats model = some c →
              is_model_limit_reached m model = Except.ok (decide (limit ≤ (c : Int)))))) := by
  constructor
  · intro h
    simp [is_model_limit_reached, h]
  · intro limit hl
    constructor
    · cases hc : dlookup stats model with
      | none => simp [is_model_limit_reached, hl, hpub, hc]
      | some c => simp [is_model_limit_reached, hl, hpub, hc]
    · intro c hc
      simp [is_model_limit_reached, hl, hpub, hc]

/-- C1 witness: with ceiling 5, a cached count of exactly 5 is over the limit,
a cached count of 4 is not, and an unconfigured model is never limited. -/
theorem C1_model_limit_inclusive_threshold_witness :
    is_model_limit_reached exMonitorC1 "m" = Except.ok true
    ∧ is_model_limit_reached exMonitorC1 "m2" = Except.ok false
    ∧ is_model_limit_reached exMonitorC1 "unknown" = Except.ok false := by
  refine ⟨?_, ?_, ?_⟩
  · have h := ((C1_model_limit_inclusive_threshold exMonitorC1 "m"
      [("m", 5), ("m2", 4)] rfl).2 5 (by decide)).2 5 (by decide)
    rw [h]
    simp
  · have h := ((C1_model_limit_inclusive_threshold exMonitorC1 "m2"
      [("m", 5), ("m2", 4)] rfl).2 5 (by decide)).2 4 (by decide)
    rw [h]
    simp
  · exact (C1_model_limit_inclusive_threshold exMonitorC1 "unknown"
      [("m", 5), ("m2", 4)] rfl).1 (by decide)

/-- C2: when both the model-level hourly check and the user-level daily check
fire for the same (model, user), the combined endpoint reports the model-level
reason; moreover the answer does not depend on the cached daily user view at
all (the user-level check is not evaluated). -/
theorem C2_model_limit_precedence (m : Monitor) (model user_id : String)
    (hm : is_model_limit_reached m model = Except.ok true)
    (hu : is_user_limit_reached m model user_id = Except.ok true) :
    is_limit_reached m model user_id
      = Except.ok (LimitResult.over
          ("MODEL_HOURLY_LIMIT (" ++ model ++ "): " ++
            toString (get_model_call_limit m model)))
    ∧ ∀ uday : Option (List (String × UserStat)),
        is_limit_reached { m with user_call_stats_day := uday } model user_id
          = Except.ok (LimitResult.over
              ("MODEL_HOURLY_LIMIT (" ++ model ++ "): " ++
                toString (get_model_call_limit m model))) := by
  constructor
  · simp [is_limit_reached, hm]
  · intro uday
    have hm' : is_model_limit_reached { m with user_call_stats_day := uday } model
        = Except.ok true := hm
    simp [is_limit_reached, hm', get_model_call_limit]

/-- C2 witness: in `exMonitorC2` both tiers are exceeded and the reported
reason is the model-level one. -/
theorem C2_model_limit_precedence_witness :
    is_model_limit_reached exMonitorC2 "m" = Except.ok true
    ∧ is_user_limit_reached exMonitorC2 "m" "u" = Except.ok true
    ∧ is_limit_reached exMonitorC2 "m" "u"
        = Except.ok (LimitResult.over "MODEL_HOURLY_LIMIT (m): 1") := by
  have hm : is_model_limit_reached exMonitorC2 "m" = Except.ok true := by decide
  have hu : is_user_limit_reached exMonitorC2 "m" "u" = Except.ok true := by decide
  have h := C2_model_limit_precedence exMonitorC2 "m" "u" hm hu
  refine ⟨hm, hu, h.1.trans ?_⟩
  decide

/-- C3: `is_user_limit_reached` returns `false` when the model has no per-user
daily ceiling, or the user is absent from the cached daily view, or the user's
daily call dict has no entry for the model; otherwise it answers exactly the
inclusive comparison of the user's daily count for the model against the
per-model ceiling (the ceiling is looked up by model only, identically for
every user). -/
theorem C3_user_limit_spec (m : Monitor) (model user_id : String)
    (stats : List (String × UserStat)) (hpub : m.user_call_stats_day = some stats) :
    (dlookup m.model_call_day_limit_per_user model = none →
        is_user_limit_reached m model user_id = Except.ok false)
    ∧ (∀ limit : Int, dlookup m.model_call_day_limit_per_user model = some limit →
        (dlookup stats user_id = none →
            is_user_limit_reached m model user_id = Except.ok false)
        ∧ (∀ ustat : UserStat, dlookup stats user_id = some ustat →
            (dlookup ustat.call_dict model = none →
                is_user_limit_reached m model user_id = Except.ok false)
            ∧ (∀ c : Nat, dlookup ustat.call_dict model = some c →
                is_user_limit_reached m model user_id
                  = Except.ok (decide (limit ≤ (c : Int)))))) := by
  constructor
  · intro h
    simp [is_user_limit_reached, h]
  · intro limit hl
    constructor
    · intro hu
      simp [is_user_limit_reached, hl, hpub, hu]
    · intro ustat hu
      constructor
      · intro hc
        simp [is_user_limit_reached, hl, hpub, hu, hc]
      · intro c hc
        simp [is_user_limit_reached, hl, hpub, hu, hc]

/-- C3 witness: ceiling 3 for model `m`; user `u` at 3 daily calls is over,
user `u2` at 2 is not, an unknown user is not, a model without a daily
ceiling is not, and a model the user never called today is not. -/
theorem C3_user_limit_spec_witness :
    is_user_limit_reached exMonitorC3 "m" "u" = Except.ok true
    ∧ is_user_limit_reached exMonitorC3 "m" "u2" = Except.ok false
    ∧ is_user_limit_reached exMonitorC3 "m" "nobody" = Except.ok false
    ∧ is_user_limit_reached exMonitorC3 "m2" "u" = Except.ok false
    ∧ is_user_limit_reached exMonitorC3 "m" "u3" = Except.ok false := by
  have base := C3_user_limit_spec exMonitorC3 "m" "u"
    [("u", UserStat.mk [("m", 3), ("m2", 1)] 4), ("u2", UserStat.mk [("m", 2)] 2)] rfl
  refine ⟨?_, ?_, ?_, ?_, ?_⟩
  · have h := (((base.2 3 (by decide)).2 (UserStat.mk [("m", 3), ("m2", 1)] 4)
      (by decide)).2 3 (by decide))
    rw [h]
    simp
  · have h := (((C3_user_limit_spec exMonitorC3 "m" "u2"
      [("u", UserStat.mk [("m", 3), ("m2", 1)] 4), ("u2", UserStat.mk [("m", 2)] 2)]
      rfl).2 3 (by decide)).2 (UserStat.mk [("m", 2)] 2) (by decide)).2 2 (by decide)
    rw [h]
    simp
  · exact ((C3_user_limit_spec exMonitorC3 "m" "nobody"
      [("u", UserStat.mk [("m", 3), ("m2", 1)] 4), ("u2", UserStat.mk [("m", 2)] 2)]
      rfl).2 3 (by decide)).1 (by decide)
  · exact (C3_user_limit_spec exMonitorC3 "m2" "u"
      [("u", UserStat.mk [("m", 3), ("m2", 1)] 4), ("u2", UserStat.mk [("m", 2)] 2)]
      rfl).1 (by decide)
  · exact ((C3_user_limit_spec exMonitorC3 "m" "u3"
      [("u", UserStat.mk [("m", 3), ("m2", 1)] 4), ("u2", UserStat.mk [("m", 2)] 2)]
      rfl).2 3 (by decide)).1 (by decide)

/-- C4: `update_model_call_limit` succeeds and overwrites the ceiling exactly
when the model already has an entry; on an unknown model it returns `false`
and leaves the state untouched, so `get_model_call_limit` still answers the
sentinel `-1`; and no sequence of update operations ever changes the key set
of the limit table. -/
theorem C4_update_limit_closed_world (m : Monitor) (model : String) (limit : Int) :
    ((dlookup m.model_call_limit_global model).isSome →
        (update_model_call_limit m model limit).1 = true
        ∧ get_model_call_limit (update_model_call_limit m model limit).2 model = limit)
    ∧ (dlookup m.model_call_limit_global model = none →
        update_model_call_limit m model limit = (false, m)
        ∧ get_model_call_limit (update_model_call_limit m model limit).2 model = -1)
    ∧ ((update_model_call_limit m model limit).2.model_call_limit_global.map Prod.fst
        = m.model_call_limit_global.map Prod.fst)
    ∧ (∀ ops : List (String × Int),
        (applyLimitUpdates m ops).model_call_limit_global.map Prod.fst
          = m.model_call_limit_global.map Prod.fst) := by
  refine ⟨?_, ?_, update_model_call_limit_keys m model limit,
    fun ops => applyLimitUpdates_keys ops m⟩
  · intro h
    cases hl : dlookup m.model_call_limit_global model with
    | none => rw [hl] at h; simp at h
    | some w =>
      constructor
      · simp [update_model_call_limit, hl]
      · simp [update_model_call_limit, hl, get_model_call_limit, dlookup_dictSet_self]
  · intro hl
    constructor
    · simp [update_model_call_limit, hl]
    · simp [update_model_call_limit, hl, get_model_call_limit]

/-- C4 witness: updating a configured model succeeds and overwrites; updating
an unknown model fails, leaves the state unchanged, and the unknown model
still reads the sentinel `-1`. -/
theorem C4_update_limit_closed_world_witness :
    (update_model_call_limit initMonitor "gpt-4-1106-preview" 7).1 = true
    ∧ get_model_call_limit
        (update_model_call_limit initMonitor "gpt-4-1106-preview" 7).2
        "gpt-4-1106-preview" = 7
    ∧ update_model_call_limit initMonitor "nonexistent-model" 10
        = (false, initMonitor)
    ∧ get_model_call_limit
        (update_model_call_limit initMonitor "nonexistent-model" 10).2
        "nonexistent-model" = -1 := by
  have h1 := (C4_update_limit_closed_world initMonitor "gpt-4-1106-preview" 7).1
    (by decide)
  have h2 := (C4_update_limit_closed_world initMonitor "nonexistent-model" 10).2.1
    (by decide)
  exact ⟨h1.1, h1.2, h2.1, h2.2⟩

/-- Example model index for the window-correctness witness: with
`now = 100000`, events 30 seconds, 90 minutes and 25 hours in the past. -/
def exIdxC5 : List (String × List ModelReq) :=
  [("m1", [ModelReq.mk 99970 "u", ModelReq.mk 94600 "u", ModelReq.mk 10000 "u"])]

/-- C5: `get_model_call_stats` with no target filter maps every model of the
raw index to the number of its events with `tstamp >= now - w*60`; with a
top-K cap it returns the first `k` entries of the deterministic
stable-descending-by-count reordering of that mapping (a permutation of it,
sorted by count descending, with entries of any fixed count kept in their
original order). -/
theorem C5_model_stats_window_topk (model_call : List (String × List ModelReq))
    (now w : Int) :
    (∀ (m : String) (reqs : List ModelReq), dlookup model_call m = some reqs →
        dlookup (get_model_call_stats model_call none w none now) m
          = some (reqs.countP (fun r => decide (now - w * 60 ≤ r.tstamp))))
    ∧ (∀ k : Nat, get_model_call_stats model_call none w (some k) now
        = (sortedByDesc (fun p => p.2)
            (get_model_call_stats model_call none w none now)).take k)
    ∧ ((sortedByDesc (fun p => p.2)
          (get_model_call_stats model_call none w none now)).Pairwise
        (fun a b => b.2 ≤ a.2))
    ∧ ((sortedByDesc (fun p => p.2)
          (get_model_call_stats model_call none w none now)).Perm
        (get_model_call_stats model_call none w none now))
    ∧ (∀ c : Nat,
        (sortedByDesc (fun p => p.2)
            (get_model_call_stats model_call none w none now)).filter
          (fun p => p.2 == c)
        = (get_model_call_stats model_call none w none now).filter
            (fun p => p.2 == c)) := by
  refine ⟨?_, fun k => rfl, sortedByDesc_pairwise _ _, sortedByDesc_perm _ _,
    fun c => sortedByDesc_filter_key _ _ c⟩
  intro m reqs h
  have hpred : (fun req : ModelReq => inWindow now w req.tstamp)
      = (fun req : ModelReq => decide (now - w * 60 ≤ req.tstamp)) :=
    funext fun r => inWindow_eq now w r.tstamp
  simp only [get_model_call_stats, filter_targetOk_none]
  rw [dlookup_map_entry
    (fun _ reqs => (reqs.filter (fun req => inWindow now w req.tstamp)).length)
    model_call m, h]
  simp [hpred, List.countP_eq_length_filter]

/-- C5 witness: of the events 30 seconds, 90 minutes and 25 hours in the past,
the 60-minute window counts one and the 1440-minute window counts two. -/
theorem C5_model_stats_window_topk_witness :
    dlookup (get_model_call_stats exIdxC5 none 60 none 100000) "m1" = some 1
    ∧ dlookup (get_model_call_stats exIdxC5 none 1440 none 100000) "m1" = some 2 := by
  constructor
  · have h := (C5_model_stats_window_topk exIdxC5 100000 60).1 "m1"
      [ModelReq.mk 99970 "u", ModelReq.mk 94600 "u", ModelReq.mk 10000 "u"] rfl
    rw [h]
    decide
  · have h := (C5_model_stats_window_topk exIdxC5 100000 1440).1 "m1"
      [ModelReq.mk 99970 "u", ModelReq.mk 94600 "u", ModelReq.mk 10000 "u"] rfl
    rw [h]
    decide

/-- Example user index for the top-K/exclusion witness: user A with 3
in-window calls, user B with one call far outside the window, user C with 7
in-window calls (`now = 100000`, window 60 minutes). -/
def exUsersC6 : List (String × List UserReq) :=
  [ ("A", List.replicate 3 (UserReq.mk 99000 "m"))
  , ("B", [UserReq.mk 10 "m"])
  , ("C", List.replicate 7 (UserReq.mk 99000 "m")) ]

/-- C6: for a raw user index with distinct user keys, `get_user_call_stats`
maps every kept user to the per-model counts of their in-window (and
target-filtered) requests together with the total of those counts; users with
total 0 are absent; with a top-K cap the result is the first `k` entries of
the stable-descending-by-total reordering, and an entry with total 0 never
appears under any cap. -/
theorem C6_user_stats_spec (user_call : List (String × List UserReq))
    (target : Option String) (w now : Int)
    (hnd : (user_call.map Prod.fst).Nodup) :
    (∀ (u : String) (reqs : List UserReq), dlookup user_call u = some reqs →
        ((∀ st : UserStat,
            dlookup (get_user_call_stats user_call target w none now) u = some st →
              (∀ mdl : String, (dlookup st.call_dict mdl).getD 0
                  = reqs.countP (fun r => userKeep target w now r && (r.model == mdl)))
              ∧ st.total_calls = reqs.countP (userKeep target w now))
          ∧ (reqs.countP (userKeep target w now) = 0 →
              dlookup (get_user_call_stats user_call target w none now) u = none)
          ∧ (0 < reqs.countP (userKeep target w now) →
              dlookup (get_user_call_stats user_call target w none now) u
                = some (UserStat.mk (buildCallDict target w now reqs)
                    (reqs.countP (userKeep target w now))))))
    ∧ (∀ k : Nat, get_user_call_stats user_call target w (some k) now
        = (sortedByDesc (fun p => p.2.total_calls)
            (get_user_call_stats user_call target w none now)).take k)
    ∧ (∀ (k : Option Nat) (u : String) (st : UserStat),
        dlookup (get_user_call_stats user_call target w k now) u = some st →
          0 < st.total_calls) := by
  refine ⟨?_, fun k => rfl, fun k u st h => user_stats_total_pos _ _ _ _ _ _ _ h⟩
  intro u reqs h
  have hbase : dlookup (get_user_call_stats user_call target w none now) u
      = (userEntry target w now (u, reqs)).map Prod.snd :=
    dlookup_filterMap_nodup (userEntry target w now) (userEntry_key target w now)
      user_call hnd u reqs h
  rw [userEntry_eval] at hbase
  have hbase2 : dlookup (get_user_call_stats user_call target w none now) u
      = if 0 < reqs.countP (userKeep target w now)
        then some (UserStat.mk (buildCallDict target w now reqs)
            (reqs.countP (userKeep target w now)))
        else none := by
    rw [hbase]
    by_cases hpos : 0 < reqs.countP (userKeep target w now)
    · rw [if_pos hpos, if_pos hpos]
      rfl
    · rw [if_neg hpos, if_neg hpos]
      rfl
  refine ⟨?_, ?_, ?_⟩
  · intro st hst
    rw [hbase2] at hst
    by_cases hpos : 0 < reqs.countP (userKeep target w now)
    · rw [if_pos hpos] at hst
      injection hst with hst
      subst hst
      exact ⟨fun mdl => buildCallDict_lookup target w now reqs mdl, rfl⟩
    · rw [if_neg hpos] at hst
      cases hst
  · intro hz
    rw [hbase2, if_neg (by omega)]
  · intro hpos
    rw [hbase2, if_pos hpos]

/-- C6 witness: with users A (3 in-window calls), B (0 in-window calls) and
C (7 in-window calls), user B is excluded, user A's record carries its counts
and total, and top-K = 1 keeps only user C. -/
theorem C6_user_stats_spec_witness :
    dlookup (get_user_call_stats exUsersC6 none 60 none 100000) "B" = none
    ∧ dlookup (get_user_call_stats exUsersC6 none 60 none 100000) "A"
        = some (UserStat.mk [("m", 3)] 3)
    ∧ (get_user_call_stats exUsersC6 none 60 (some 1) 100000).map Prod.fst = ["C"] := by
  have base := C6_user_stats_spec exUsersC6 none 60 100000 (by decide)
  refine ⟨?_, ?_, ?_⟩
  · exact ((base.1 "B" [UserReq.mk 10 "m"] rfl).2.1 (by decide))
  · have h := (base.1 "A" (List.replicate 3 (UserReq.mk 99000 "m")) rfl).2.2 (by decide)
    rw [h]
    decide
  · rw [base.2.1 1]
    decide

/-- C10: the two stats functions treat zero counts asymmetrically: an unfiltered
`get_model_call_stats` keeps an entry (possibly of count 0) for every model of
the raw index, while `get_user_call_stats` never yields an entry whose total
is 0, for any target filter or top-K cap. -/
theorem C10_zero_count_asymmetry (w now : Int) :
    (∀ (model_call : List (String × List ModelReq)) (m : String)
        (reqs : List ModelReq), dlookup model_call m = some reqs →
        dlookup (get_model_call_stats model_call none w none now) m
          = some ((reqs.filter (fun req => inWindow now w req.tstamp)).length))
    ∧ (∀ (user_call : List (String × List UserReq)) (target : Option String)
        (k : Option Nat) (u : String) (st : UserStat),
        dlookup (get_user_call_stats user_call target w k now) u = some st →
          st.total_calls ≠ 0) := by
  constructor
  · intro model_call m reqs h
    simp only [get_model_call_stats, filter_targetOk_none]
    rw [dlookup_map_entry
      (fun _ reqs => (reqs.filter (fun req => inWindow now w req.tstamp)).length)
      model_call m, h]
    rfl
  · intro user_call target k u st h
    have := user_stats_total_pos user_call target w now k u st h
    omega

/-- C10 witness: a model whose only event is outside the window still gets an
entry (of count 0), while a user entry that does occur has a nonzero total. -/
theorem C10_zero_count_asymmetry_witness :
    dlookup (get_model_call_stats [("m0", [ModelReq.mk 10 "u"])] none 60 none 100000)
        "m0" = some 0
    ∧ ∀ st : UserStat,
        dlookup (get_user_call_stats [("C", [UserReq.mk 99000 "m"])] none 60 none 100000)
            "C" = some st → st.total_calls ≠ 0 := by
  constructor
  · have h := (C10_zero_count_asymmetry 60 100000).1 [("m0", [ModelReq.mk 10 "u"])]
      "m0" [ModelReq.mk 10 "u"] rfl
    rw [h]
    decide
  · intro st hst
    exact (C10_zero_count_asymmetry 60 100000).2 [("C", [UserReq.mk 99000 "m"])]
      none none "C" st hst

/-- C7: the ingestion loop of `update_stats` is not resilient to a malformed
line: a cycle whose input is a malformed line followed by a valid `"chat"`
record aborts with the uncaught parse exception and publishes nothing, even
though the same cycle without the malformed line succeeds and counts the valid
record. (The spec requires the failure to be scoped to the single line; the
code aborts the whole cycle, which also terminates the refresh task.) -/
theorem C7_malformed_line_aborts_cycle :
    runCycle [LogLine.malformed,
        LogLine.record (some "chat") (some "m1") (some 0) (some "u1")]
      = Except.error ()
    ∧ runCycle [LogLine.record (some "chat") (some "m1") (some 0) (some "u1")]
        = Except.ok (CycleAcc.mk [("m1", [ModelReq.mk 0 "u1"])]
            [("u1", [UserReq.mk 0 "m1"])])
    ∧ update_stats_cycle initMonitor
        [LogLine.malformed,
         LogLine.record (some "chat") (some "m1") (some 0) (some "u1")] 0
      = Except.error ()
    ∧ update_stats_cycle initMonitor
        [LogLine.record (some "nonchat") none none none,
         LogLine.record (some "chat") (some "m1") (some 0) (some "u1")] 0
      ≠ Except.error () := by
  refine ⟨by decide, by decide, by decide, by decide⟩

/-- C9: at `__init__` the raw indices are well-defined and empty and the limit
tables are populated, so index-only queries (`get_model_call_limit`, on-demand
stats, `get_num_users`) are total on the initial state — but the four cached
views are unset, so `is_model_limit_reached` (hence the combined
`is_limit_reached`) on a configured model raises `AttributeError` instead of
answering the empty-snapshot `false`, and the `/get_num_users_hr` view is
likewise unset. -/
theorem C9_init_state_query_totality :
    initMonitor.model_call = []
    ∧ initMonitor.user_call = []
    ∧ (dlookup initMonitor.model_call_limit_global "gpt-4-1106-preview").isSome
    ∧ get_model_call_limit initMonitor "gpt-4-1106-preview" = 100
    ∧ get_model_call_stats initMonitor.model_call none 60 none 0 = []
    ∧ get_user_call_stats initMonitor.user_call none 60 none 0 = []
    ∧ get_num_users initMonitor.user_call 60 0 = 0
    ∧ initMonitor.user_call_stats_hour = none
    ∧ is_model_limit_reached initMonitor "gpt-4-1106-preview" = Except.error ()
    ∧ is_limit_reached initMonitor "gpt-4-1106-preview" "u" = Except.error () := by
  refine ⟨rfl, rfl, by decide, by decide, rfl, rfl, rfl, rfl, by decide, by decide⟩
